import Mathlib

/-!
Shallow embedding of the voice-segmentation core of the speech2text
repository.

The repository's variants are all single-threaded, event-driven React
components: a voice-probability callback, a silence-debounce timer, a
MediaRecorder whose `onstop` finalizes the current utterance, and (in one
variant) a max-duration timer and a promise-chained transcription queue.
Each variant's handlers are embedded as pure transition functions on an
explicit state record; mutable refs and React state are modelled as fields
of that record read at their current values, and `setTimeout` timers as
`Option Nat` deadlines that a driver fires (at their deadline time) before
any later event is handled.  Timed event traces are lists of
`(timestamp, event)` pairs processed by a left fold.  Voice
probabilities (floats in [0,1] in the source) are carried in thousandths
as `Nat`, so a source threshold of 0.2 becomes 200; the only operation the
code performs on a probability is an order comparison against the
threshold, which this scaling preserves.
-/

namespace Page

/- Embedding of the first component of src/src/app/page.tsx
   (`VoiceDetector`): threshold 0.2, silence debounce 1500 ms,
   minimum recording duration 500 ms, no max-duration timer. -/

def VOICE_PROBABILITY_THRESHOLD : Nat := 200

def SILENCE_DURATION_THRESHOLD : Nat := 1500

def MIN_RECORDING_DURATION : Nat := 500

/-- State of the `VoiceDetector` component.  `active` is the list of start
timestamps of MediaRecorder sessions currently in the "recording" state
(the code keeps one `mediaRecorderRef`; the list lets the single-session
invariant be stated rather than assumed).  `silenceDeadline` is the armed
`silenceTimeoutRef` as an absolute firing time.  `clips` are the finalized
`(startTime, stopTime)` pairs appended by `onstop`.  `released` records
that the unmount cleanup ran (it releases the microphone and the Cobra
worker but touches none of the other fields). -/
structure State where
  listening : Bool
  stream : Bool
  silenceDeadline : Option Nat
  active : List Nat
  chunks : List Nat
  clips : List (Nat × Nat)
  released : Bool
deriving DecidableEq, Repr

/-- `mediaRecorder.onstop` (page.tsx lines 133-166) run at time `t`:
`duration = startTime ? endTime - startTime : 0`; a clip is appended only
when `duration >= MIN_RECORDING_DURATION && audioChunksRef.current.length > 0`;
the chunk buffer is cleared and the recording flags reset either way. -/
def onstopAt (m : State) (t : Nat) : State :=
  match m.active with
  | [] => m
  | a :: _ =>
    let duration := if a = 0 then 0 else t - a
    let m1 :=
      if MIN_RECORDING_DURATION ≤ duration ∧ 0 < m.chunks.length then
        { m with clips := m.clips ++ [(a, t)] }
      else m
    { m1 with chunks := [], active := [] }

/-- `stopRecording` (page.tsx lines 177-186): calls `.stop()` only when the
current recorder is in the "recording" state, which synchronously runs
`onstop`. -/
def stopRecording (m : State) (t : Nat) : State :=
  if m.active = [] then m else onstopAt m t

/-- Driver step firing the armed silence timer when its deadline has been
reached by time `t`.  The callback (page.tsx lines 58-61) runs
`stopRecording()` and nulls `silenceTimeoutRef`; it runs at its deadline,
so the stop time handed to `onstop` is the deadline itself. -/
def fireDue (m : State) (t : Nat) : State :=
  match m.silenceDeadline with
  | some d => if d ≤ t then { stopRecording m d with silenceDeadline := none } else m
  | none => m

/-- `handleVoiceDetected` (page.tsx lines 36-54): always cancels an armed
silence timer, then starts a recording only when not already recording,
listening, and the stream ref is set.  `startRecording` (lines 109-175)
re-checks that the current recorder is not recording, clears the chunk
buffer and captures the start timestamp. -/
def handleVoiceDetected (m : State) (t : Nat) : State :=
  let m1 := { m with silenceDeadline := none }
  if m1.active = [] ∧ m1.listening = true ∧ m1.stream = true then
    { m1 with active := [t], chunks := [] }
  else m1

/-- `handleSilenceDetected` (page.tsx lines 56-63): arms the silence timer
only when none is armed and a recording is active; a sub-threshold sample
while a timer is already armed does not re-arm it. -/
def handleSilenceDetected (m : State) (t : Nat) : State :=
  if m.silenceDeadline = none ∧ m.active ≠ [] then
    { m with silenceDeadline := some (t + SILENCE_DURATION_THRESHOLD) }
  else m

/-- `handleVoiceProbability` (page.tsx lines 83-89): probability at or above
the threshold is voice, below is silence. -/
def handleVoiceProbability (m : State) (t : Nat) (p : Nat) : State :=
  if VOICE_PROBABILITY_THRESHOLD ≤ p then handleVoiceDetected m t
  else handleSilenceDetected m t

/-- Asynchronous callbacks delivered to the component: an activity sample
with its probability, a `dataavailable` chunk of the given size, and the
start/stop-listening operations. -/
inductive Ev where
  | sample (p : Nat)
  | chunk (size : Nat)
  | startListen
  | stopListen
deriving DecidableEq, Repr

/-- Dispatch of one callback at time `t`: `ondataavailable` (lines 127-131)
appends a chunk only if its size is positive and the recorder is recording;
`startListening` (lines 188-200) subscribes; `stopListening` (lines
202-217) returns early unless listening, else stops an active recording and
unsubscribes.  Neither listening operation clears the silence timer. -/
def handle : State → Nat → Ev → State
  | m, t, .sample p => handleVoiceProbability m t p
  | m, _, .chunk n => if m.active ≠ [] ∧ 0 < n then { m with chunks := m.chunks ++ [n] } else m
  | m, _, .startListen => { m with listening := true }
  | m, t, .stopListen =>
    if m.listening = true then { stopRecording m t with listening := false } else m

/-- One driver step: fire any due timer, then handle the event. -/
def stepAt (m : State) (e : Nat × Ev) : State := handle (fireDue m e.1) e.1 e.2

/-- Run a timed event trace. -/
def procEvents (m : State) (evs : List (Nat × Ev)) : State := evs.foldl stepAt m

/-- Component state right after `initializeVoiceDetector` succeeded:
stream acquired, not listening, nothing recorded. -/
def startState : State :=
  { listening := false, stream := true, silenceDeadline := none
    active := [], chunks := [], clips := [], released := false }

/-- The unmount cleanup (page.tsx lines 228-239): unsubscribes the Cobra
worker, stops the stream tracks, releases the worker and revokes the clip
URLs.  It contains no `clearTimeout`, so an armed silence timer and the
recording state survive it unchanged; only external resources are
released. -/
def unmountCleanup (m : State) : State := { m with released := true }

end Page

namespace Rt

/- Embedding of the first component of src/unnamed/part_001
   (`RealtimeSpeechToText` with the Card UI): threshold 0.4, silence
   debounce 750 ms, minimum 250 ms, maximum 3000 ms, promise-chained
   transcription queue. -/

def VOICE_PROBABILITY_THRESHOLD : Nat := 400

def SILENCE_DURATION_THRESHOLD : Nat := 750

def MIN_RECORDING_DURATION : Nat := 250

def MAX_RECORDING_DURATION : Nat := 3000

/-- State of the queued `RealtimeSpeechToText` component.  In addition to
the fields of `Page.State`: `maxDeadline` is the armed
`recordingTimeoutRef`, `dispatched` lists the chunk sequences handed to
`processAndSendAudio`, and `busy` is the `isProcessing` flag that the
transcription chain toggles — no recording guard of this variant reads
it. -/
structure State where
  listening : Bool
  stream : Bool
  busy : Bool
  silenceDeadline : Option Nat
  maxDeadline : Option Nat
  active : List Nat
  chunks : List Nat
  clips : List (Nat × Nat)
  dispatched : List (List Nat)
deriving DecidableEq, Repr

/-- `mediaRecorder.onstop` (part_001 lines 309-324) at time `t`:
`duration = Date.now() - (recordingStartTimeRef.current || 0)`; when
`duration >= MIN_RECORDING_DURATION && chunksRef.current.length > 0` the
chunks become a blob handed to `processAndSendAudio` (one clip, one
dispatched job); the buffer and recording flags are reset either way. -/
def onstopAt (m : State) (t : Nat) : State :=
  match m.active with
  | [] => m
  | a :: _ =>
    let duration := t - a
    let m1 :=
      if MIN_RECORDING_DURATION ≤ duration ∧ 0 < m.chunks.length then
        { m with clips := m.clips ++ [(a, t)], dispatched := m.dispatched ++ [m.chunks] }
      else m
    { m1 with chunks := [], active := [] }

/-- `stopRecording` (part_001 lines 340-348): stops the recorder when it is
recording (running `onstop`), and always clears the armed max-duration
timer `recordingTimeoutRef`. -/
def stopRecording (m : State) (t : Nat) : State :=
  let m1 := if m.active = [] then m else onstopAt m t
  { m1 with maxDeadline := none }

/-- The silence-timer callback (part_001 lines 278-281): `stopRecording()`
then null the ref; runs at its stored deadline. -/
def fireSilence (m : State) : State :=
  match m.silenceDeadline with
  | some d => { stopRecording m d with silenceDeadline := none }
  | none => m

/-- The max-duration-timer callback (part_001 lines 330-334): runs
`stopRecording()` only if the recorder is still recording; the timer is
consumed either way. -/
def fireMax (m : State) : State :=
  match m.maxDeadline with
  | some d =>
    if m.active = [] then { m with maxDeadline := none }
    else { stopRecording m d with maxDeadline := none }
  | none => m

/-- Driver step firing the due timers, earliest deadline first, before an
event at time `t` is handled.  A silence stop also cancels the max timer
(inside `stopRecording`); a max stop leaves the silence timer armed, as in
the source. -/
def fireDue (m : State) (t : Nat) : State :=
  match m.silenceDeadline, m.maxDeadline with
  | some ds, some dm =>
    if ds ≤ t then
      if dm ≤ t then
        if dm < ds then fireSilence (fireMax m) else fireMax (fireSilence m)
      else fireSilence m
    else if dm ≤ t then fireMax m else m
  | some ds, none => if ds ≤ t then fireSilence m else m
  | none, some dm => if dm ≤ t then fireMax m else m
  | none, none => m

/-- `handleVoiceDetected` (part_001 lines 261-274): cancels an armed
silence timer, then starts a recording when not recording, listening, and
the stream is set — the `isProcessing` flag is not consulted.
`startRecording` (lines 285-338) clears the chunk buffer, records the
start timestamp, and arms the max-duration timer. -/
def handleVoiceDetected (m : State) (t : Nat) : State :=
  let m1 := { m with silenceDeadline := none }
  if m1.active = [] ∧ m1.listening = true ∧ m1.stream = true then
    { m1 with active := [t], chunks := [], maxDeadline := some (t + MAX_RECORDING_DURATION) }
  else m1

/-- `handleSilenceDetected` (part_001 lines 276-283): arms the silence
timer only when none is armed and a recording is active. -/
def handleSilenceDetected (m : State) (t : Nat) : State :=
  if m.silenceDeadline = none ∧ m.active ≠ [] then
    { m with silenceDeadline := some (t + SILENCE_DURATION_THRESHOLD) }
  else m

/-- The Cobra probability callback (part_001 lines 240-246). -/
def handleVoiceProbability (m : State) (t : Nat) (p : Nat) : State :=
  if VOICE_PROBABILITY_THRESHOLD ≤ p then handleVoiceDetected m t
  else handleSilenceDetected m t

/-- Asynchronous callbacks of this variant.  `processing b` models
`setIsProcessing(b)` performed by the transcription chain interleaving
with the capture path. -/
inductive Ev where
  | sample (p : Nat)
  | chunk (size : Nat)
  | startListen
  | stopListen
  | processing (b : Bool)
deriving DecidableEq, Repr

/-- Dispatch of one callback at time `t` (chunk: lines 303-307;
startListening: lines 350-360; stopListening: lines 362-375). -/
def handle : State → Nat → Ev → State
  | m, t, .sample p => handleVoiceProbability m t p
  | m, _, .chunk n => if m.active ≠ [] ∧ 0 < n then { m with chunks := m.chunks ++ [n] } else m
  | m, _, .startListen => { m with listening := true }
  | m, t, .stopListen =>
    if m.listening = true then { stopRecording m t with listening := false } else m
  | m, _, .processing b => { m with busy := b }

/-- One driver step: fire due timers, then handle the event. -/
def stepAt (m : State) (e : Nat × Ev) : State := handle (fireDue m e.1) e.1 e.2

/-- Run a timed event trace. -/
def procEvents (m : State) (evs : List (Nat × Ev)) : State := evs.foldl stepAt m

end Rt

namespace S2T

/- Embedding of src/src/app/speech2tex.tsx (VAD-based `Index` component):
   pause threshold 2000 ms, minimum recording length 500 ms. -/

def PAUSE_THRESHOLD : Nat := 2000

def MIN_RECORDING_LENGTH : Nat := 500

/-- State of the speech2tex component: `silenceStart` is
`silenceStartRef`, `pauseDeadline` the armed `pauseTimeoutRef` as an
absolute firing time, `isLongPause` the `isLongPauseRef` flag. -/
structure State where
  listening : Bool
  recording : Bool
  silenceStart : Option Nat
  pauseDeadline : Option Nat
  isLongPause : Bool
deriving DecidableEq, Repr

/-- `handlePause` (speech2tex lines 30-43) at time `t`: only when no
silence start is recorded, record it and arm the pause timer. -/
def handlePause (s : State) (t : Nat) : State :=
  if s.silenceStart = none then
    { s with silenceStart := some t, pauseDeadline := some (t + PAUSE_THRESHOLD) }
  else s

/-- `handleSpeech` (speech2tex lines 45-52): clear the pause timer and the
silence bookkeeping. -/
def handleSpeech (s : State) : State :=
  { s with pauseDeadline := none, silenceStart := none, isLongPause := false }

/-- The pause-timer callback (speech2tex lines 34-42) firing at time `t`:
if the pause lasted at least `PAUSE_THRESHOLD`, mark the long pause and
stop the recording. -/
def pauseFire (s : State) (t : Nat) : State :=
  match s.pauseDeadline with
  | none => s
  | some d =>
    if d ≤ t then
      let pauseDuration := t - s.silenceStart.getD 0
      let s1 :=
        if PAUSE_THRESHOLD ≤ pauseDuration then
          { s with isLongPause := true, recording := false }
        else s
      { s1 with pauseDeadline := none }
    else s

/-- `stopListening` (speech2tex lines 86-101): stops the stream tracks,
closes the audio context, destroys the VAD, clears the armed pause timer
with `clearTimeout`, and clears the listening and recording flags. -/
def stopListening (s : State) : State :=
  { s with listening := false, recording := false, pauseDeadline := none }

/-- `mediaRecorder.onstop` save decision (speech2tex lines 296-303 with
`saveRecording`, lines 103-109): a packet is saved only when the recording
lasted at least `MIN_RECORDING_LENGTH` and the concatenated blob is
non-empty. -/
def onstopSaves (recordingDuration : Nat) (chunkSizes : List Nat) : Bool :=
  (MIN_RECORDING_LENGTH ≤ recordingDuration) &&
    (0 < chunkSizes.foldl (fun acc l => acc + l) 0)

end S2T

namespace P2

/- Guards of the second component of src/src/app/page.tsx
   (`RealtimeSpeechToText` without a queue, lines 460-755), taken at face
   value: each flag is read at its current value. -/

/-- The start condition of `handleVoiceDetected` (page.tsx lines 538-543):
`!isRecordingRef.current && isListeningRef.current && streamRef.current &&
!isProcessing`. -/
def handleVoiceStarts (isRecording isListening hasStream processingNow : Bool) : Bool :=
  !isRecording && isListening && hasStream && !processingNow

/-- The entry guard of `startRecording` (page.tsx lines 636-643): the body
is skipped when the stream is missing, the recorder is already recording,
or `isProcessing` is set. -/
def startRecordingProceeds (hasStream recorderRecording processingNow : Bool) : Bool :=
  hasStream && !recorderRecording && !processingNow

end P2

namespace Disp

/- Embedding of the promise-chained transcription dispatcher of
   src/unnamed/part_001 (`processAndSendAudio`, lines 156-212):
   `processingQueueRef.current = processingQueueRef.current.then(newProcessing)`
   runs the jobs strictly sequentially in submission order. -/

/-- One queued transcription job: the transcript its network response
carries, the error message when the request fails, whether it succeeds,
and its network latency. -/
structure Job where
  transcript : String
  errText : String
  ok : Bool
  latency : Nat
deriving DecidableEq, Repr

/-- Component state touched by `newProcessing`: the accumulated
`transcription`, the latest `error`, the `isProcessing` flag, a count of
chain entries that completed, and the listening/recording flags of the
capture path, which `newProcessing` never writes. -/
structure State where
  transcription : Option String
  errorText : Option String
  processedCount : Nat
  isListening : Bool
  isRecording : Bool
deriving DecidableEq, Repr

/-- `setTranscription` update on success (part_001 lines 196-201):
`prev ? prev.transcript + " " + data.transcript : data.transcript`. -/
def appendTr : Option String → String → String
  | some prev, t => prev ++ " " ++ t
  | none, t => t

/-- One chain entry `newProcessing` (part_001 lines 159-209): on success
append the transcript; on any failure record the error and continue — the
function catches every error, so the chain promise always resolves and the
next entry runs. -/
def newProcessing (s : State) (j : Job) : State :=
  if j.ok then
    { s with transcription := some (appendTr s.transcription j.transcript),
             processedCount := s.processedCount + 1 }
  else
    { s with errorText := some j.errText,
             processedCount := s.processedCount + 1 }

/-- Running the whole chain over the submitted jobs in submission order. -/
def runQueue (s : State) (jobs : List Job) : State := jobs.foldl newProcessing s

/-- Submission-order concatenation of transcripts, starting from the
accumulator's current contents. -/
def joinTr (acc : Option String) (ts : List String) : Option String :=
  ts.foldl (fun a t => some (appendTr a t)) acc

/-- Start/finish times of each job's network call under the chain: the
first call starts at `t0`; each later call starts when the previous one
finishes. -/
def chainTimes : Nat → List Nat → List (Nat × Nat)
  | _, [] => []
  | t, l :: ls => (t, t + l) :: chainTimes (t + l) ls

/-- Dispatcher state before any job completed. -/
def startState : State :=
  { transcription := none, errorText := none, processedCount := 0
    isListening := true, isRecording := false }

end Disp

namespace Srv

/- Embedding of the audio case of the relay server's message handler
   (src/src/app/server.js lines 108-162). -/

def MAX_BUFFER_SIZE : Nat := 1024 * 1024

/-- A connected relay client: the accumulated audio chunk sizes, whether
the socket is still open, and whether the debounced processing timeout is
armed. -/
structure Client where
  buffer : List Nat
  connected : Bool
  pendingTimeout : Bool
deriving DecidableEq, Repr

/-- Outbound messages of the relay. -/
inductive Reply where
  | transcriptMsg
  | errorText (s : String)
  | pongMsg
deriving DecidableEq, Repr

/-- The `'audio'` case (server.js lines 108-149) together with the message
handler's catch (lines 156-162): the decoded chunk is pushed first; then
the total size is checked, and exceeding `MAX_BUFFER_SIZE` throws, which
the catch answers with an error message — the buffer keeps the pushed
chunks, the socket stays open, and the processing timeout is not re-armed.
Below the cap, the debounce timeout is (re)armed. -/
def audioCase (c : Client) (chunk : Nat) : Client × Option Reply :=
  let buf := c.buffer ++ [chunk]
  let totalSize := buf.foldl (fun acc l => acc + l) 0
  if MAX_BUFFER_SIZE < totalSize then
    ({ c with buffer := buf }, some (.errorText "Failed to process message"))
  else
    ({ c with buffer := buf, pendingTimeout := true }, none)

/-- A freshly connected client (server.js lines 82-90). -/
def connectedClient : Client :=
  { buffer := [], connected := true, pendingTimeout := false }

end Srv

/-! Concrete states and inputs used by the witnesses and counterexamples. -/

/-- A `VoiceDetector` state mid-utterance: listening, recording since
time 100, one 500-byte chunk captured, no timer armed. -/
def wGap : Page.State :=
  { listening := true, stream := true, silenceDeadline := none
    active := [100], chunks := [500], clips := [], released := false }

/-- A `VoiceDetector` state with a recording active since time 100 and the
silence timer armed to fire at time 2000. -/
def wRel : Page.State :=
  { listening := true, stream := true, silenceDeadline := some 2000
    active := [100], chunks := [600], clips := [], released := false }

/-- A below-minimum `VoiceDetector` session: recording since time 1000. -/
def wShortP : Page.State :=
  { listening := true, stream := true, silenceDeadline := none
    active := [1000], chunks := [300], clips := [], released := false }

/-- A below-minimum queued-variant session: recording since time 50. -/
def wShortR : Rt.State :=
  { listening := true, stream := true, busy := false, silenceDeadline := none
    maxDeadline := some 3050, active := [50], chunks := [100], clips := [], dispatched := [] }

/-- A queued-variant session started at time 100 whose max-duration timer
is armed to fire at time 3100. -/
def wMax : Rt.State :=
  { listening := true, stream := true, busy := false, silenceDeadline := none
    maxDeadline := some 3100, active := [100], chunks := [400], clips := [], dispatched := [] }

/-- An idle, listening queued-variant state. -/
def wStart : Rt.State :=
  { listening := true, stream := true, busy := false, silenceDeadline := some 500
    maxDeadline := none, active := [], chunks := [], clips := [], dispatched := [] }

/-- A `VoiceDetector` session with no captured chunk. -/
def wEmptyP : Page.State :=
  { listening := true, stream := true, silenceDeadline := none
    active := [100], chunks := [], clips := [], released := false }

/-- A queued-variant session with no captured chunk. -/
def wEmptyR : Rt.State :=
  { listening := true, stream := true, busy := false, silenceDeadline := none
    maxDeadline := some 3100, active := [100], chunks := [], clips := [], dispatched := [] }

/-- Three successful jobs A, B, C whose latencies would have delivered the
network responses in the order C, A, B had the calls been issued
concurrently at submission time. -/
def wJobsOk : List Disp.Job :=
  [⟨"A", "", true, 2⟩, ⟨"B", "", true, 3⟩, ⟨"C", "", true, 1⟩]

/-- Three jobs of which the middle one fails. -/
def wJobsFail : List Disp.Job :=
  [⟨"A", "", true, 1⟩, ⟨"B", "boom", false, 1⟩, ⟨"C", "", true, 1⟩]

/-- A relay client holding 900000 buffered bytes. -/
def wOvClient : Srv.Client :=
  { buffer := [900000], connected := true, pendingTimeout := true }

/-! Helper lemmas. -/

lemma Page.onstopAt_active (m : Page.State) (t : Nat) : (Page.onstopAt m t).active = [] := by
  unfold Page.onstopAt
  match h : m.active with
  | [] => simp [h]
  | a :: rest => simp

lemma Page.stopRecording_active (m : Page.State) (t : Nat) :
    (Page.stopRecording m t).active = [] := by
  unfold Page.stopRecording
  split
  · assumption
  · exact Page.onstopAt_active m t

lemma Page.fireDue_active (m : Page.State) (t : Nat) :
    (Page.fireDue m t).active = m.active ∨ (Page.fireDue m t).active = [] := by
  unfold Page.fireDue
  match m.silenceDeadline with
  | none => exact Or.inl rfl
  | some d =>
    by_cases h : d ≤ t
    · exact Or.inr (by simp [h, Page.stopRecording_active])
    · exact Or.inl (by simp [h])

lemma Page.stepAt_active_len (m : Page.State) (e : Nat × Page.Ev)
    (h : m.active.length ≤ 1) : (Page.stepAt m e).active.length ≤ 1 := by
  obtain ⟨t, ev⟩ := e
  have hf : (Page.fireDue m t).active.length ≤ 1 := by
    rcases Page.fireDue_active m t with h1 | h1 <;> simp [h1, h]
  cases ev with
  | sample p =>
    simp only [Page.stepAt, Page.handle, Page.handleVoiceProbability,
      Page.handleVoiceDetected, Page.handleSilenceDetected]
    split
    · split
      · simp
      · simpa using hf
    · split
      · simpa using hf
      · exact hf
  | chunk n =>
    simp only [Page.stepAt, Page.handle]
    split
    · simpa using hf
    · exact hf
  | startListen => simpa only [Page.stepAt, Page.handle] using hf
  | stopListen =>
    simp only [Page.stepAt, Page.handle]
    split
    · simp [Page.stopRecording_active]
    · exact hf

lemma Page.procEvents_active_len (evs : List (Nat × Page.Ev)) :
    ∀ m : Page.State, m.active.length ≤ 1 → (Page.procEvents m evs).active.length ≤ 1 := by
  induction evs with
  | nil => intro m h; exact h
  | cons e rest ih =>
    intro m h
    exact ih (Page.stepAt m e) (Page.stepAt_active_len m e h)

lemma Page.stepAt_silent_armed (m : Page.State) (t p d : Nat)
    (hd : m.silenceDeadline = some d) (ht : t < d)
    (hp : p < Page.VOICE_PROBABILITY_THRESHOLD) (_ha : m.active ≠ []) :
    Page.stepAt m (t, Page.Ev.sample p) = m := by
  have hnf : Page.fireDue m t = m := by
    unfold Page.fireDue
    rw [hd]
    simp [Nat.not_le.mpr ht]
  simp only [Page.stepAt, hnf, Page.handle, Page.handleVoiceProbability,
    Page.handleSilenceDetected]
  rw [if_neg (Nat.not_le.mpr hp), if_neg (by simp [hd])]

lemma Page.procEvents_silent_run (rest : List (Nat × Nat)) :
    ∀ (m : Page.State) (d : Nat), m.silenceDeadline = some d → m.active ≠ [] →
    (∀ e ∈ rest, e.2 < Page.VOICE_PROBABILITY_THRESHOLD ∧ e.1 < d) →
    Page.procEvents m (rest.map (fun e => (e.1, Page.Ev.sample e.2))) = m := by
  induction rest with
  | nil => intro m d _ _ _; rfl
  | cons e rest ih =>
    intro m d hd ha hall
    have he := hall e (List.mem_cons_self e rest)
    have hstep : Page.stepAt m (e.1, Page.Ev.sample e.2) = m :=
      Page.stepAt_silent_armed m e.1 e.2 d hd he.2 he.1 ha
    simp only [List.map_cons, Page.procEvents, List.foldl_cons]
    rw [show Page.stepAt m (e.1, Page.Ev.sample e.2) = m from hstep]
    exact ih m d hd ha (fun x hx => hall x (List.mem_cons_of_mem e hx))

lemma Page.stepAt_first_silent (m : Page.State) (s1 p1 : Nat)
    (hdl : m.silenceDeadline = none)
    (hp : p1 < Page.VOICE_PROBABILITY_THRESHOLD) (ha : m.active ≠ []) :
    Page.stepAt m (s1, Page.Ev.sample p1) =
      { m with silenceDeadline := some (s1 + Page.SILENCE_DURATION_THRESHOLD) } := by
  have hnf : Page.fireDue m s1 = m := by
    unfold Page.fireDue
    rw [hdl]
  simp only [Page.stepAt, hnf, Page.handle, Page.handleVoiceProbability,
    Page.handleSilenceDetected]
  rw [if_neg (Nat.not_le.mpr hp), if_pos ⟨hdl, ha⟩]

lemma Page.stepAt_resume (m : Page.State) (t pr d : Nat)
    (hd : m.silenceDeadline = some d) (ht : t < d)
    (hp : Page.VOICE_PROBABILITY_THRESHOLD ≤ pr) (ha : m.active ≠ []) :
    Page.stepAt m (t, Page.Ev.sample pr) = { m with silenceDeadline := none } := by
  have hnf : Page.fireDue m t = m := by
    unfold Page.fireDue
    rw [hd]
    simp [Nat.not_le.mpr ht]
  simp only [Page.stepAt, hnf, Page.handle, Page.handleVoiceProbability,
    Page.handleVoiceDetected]
  rw [if_pos hp, if_neg (by simp [ha])]

lemma Page.eta_silence_none (m : Page.State) (h : m.silenceDeadline = none) :
    ({ m with silenceDeadline := none } : Page.State) = m := by
  cases m
  simp_all

lemma Disp.runQueue_transcription_ok (jobs : List Disp.Job) :
    ∀ s : Disp.State, (∀ j ∈ jobs, j.ok = true) →
    (Disp.runQueue s jobs).transcription =
      Disp.joinTr s.transcription (jobs.map Disp.Job.transcript) := by
  induction jobs with
  | nil => intro s _; rfl
  | cons j jobs ih =>
    intro s hok
    have hj : j.ok = true := hok j (List.mem_cons_self j jobs)
    simp only [Disp.runQueue, List.foldl_cons, List.map_cons, Disp.joinTr]
    have : Disp.newProcessing s j =
        { s with transcription := some (Disp.appendTr s.transcription j.transcript),
                 processedCount := s.processedCount + 1 } := by
      unfold Disp.newProcessing
      rw [if_pos hj]
    rw [this]
    simpa [Disp.joinTr] using ih _ (fun x hx => hok x (List.mem_cons_of_mem j hx))

lemma Disp.chainTimes_sequential (ls : List Nat) :
    ∀ t : Nat, List.Chain' (fun a b => a.2 = b.1) (Disp.chainTimes t ls) := by
  induction ls with
  | nil => intro t; simp [Disp.chainTimes]
  | cons l ls ih =>
    intro t
    rw [Disp.chainTimes, List.chain'_cons']
    refine ⟨?_, ih (t + l)⟩
    intro b hb
    cases ls with
    | nil => simp [Disp.chainTimes] at hb
    | cons l2 ls2 =>
      rw [Disp.chainTimes] at hb
      simp at hb
      rw [← hb]

lemma Disp.newProcessing_processedCount (s : Disp.State) (j : Disp.Job) :
    (Disp.newProcessing s j).processedCount = s.processedCount + 1 := by
  unfold Disp.newProcessing
  split <;> rfl

lemma Disp.newProcessing_isListening (s : Disp.State) (j : Disp.Job) :
    (Disp.newProcessing s j).isListening = s.isListening := by
  unfold Disp.newProcessing
  split <;> rfl

lemma Disp.newProcessing_isRecording (s : Disp.State) (j : Disp.Job) :
    (Disp.newProcessing s j).isRecording = s.isRecording := by
  unfold Disp.newProcessing
  split <;> rfl

lemma Disp.runQueue_processedCount (jobs : List Disp.Job) :
    ∀ s : Disp.State, (Disp.runQueue s jobs).processedCount = s.processedCount + jobs.length := by
  induction jobs with
  | nil => intro s; rfl
  | cons j jobs ih =>
    intro s
    simp only [Disp.runQueue, List.foldl_cons, List.length_cons] at *
    rw [ih (Disp.newProcessing s j), Disp.newProcessing_processedCount]
    omega

lemma Disp.runQueue_isListening (jobs : List Disp.Job) :
    ∀ s : Disp.State, (Disp.runQueue s jobs).isListening = s.isListening := by
  induction jobs with
  | nil => intro s; rfl
  | cons j jobs ih =>
    intro s
    simp only [Disp.runQueue, List.foldl_cons] at *
    rw [ih (Disp.newProcessing s j), Disp.newProcessing_isListening]

lemma Disp.runQueue_isRecording (jobs : List Disp.Job) :
    ∀ s : Disp.State, (Disp.runQueue s jobs).isRecording = s.isRecording := by
  induction jobs with
  | nil => intro s; rfl
  | cons j jobs ih =>
    intro s
    simp only [Disp.runQueue, List.foldl_cons] at *
    rw [ih (Disp.newProcessing s j), Disp.newProcessing_isRecording]

lemma Disp.runQueue_transcription_filter (jobs : List Disp.Job) :
    ∀ s : Disp.State, (Disp.runQueue s jobs).transcription =
      Disp.joinTr s.transcription ((jobs.filter (fun j => j.ok)).map Disp.Job.transcript) := by
  induction jobs with
  | nil => intro s; rfl
  | cons j jobs ih =>
    intro s
    by_cases hj : j.ok = true
    · have hnp : Disp.newProcessing s j =
          { s with transcription := some (Disp.appendTr s.transcription j.transcript),
                   processedCount := s.processedCount + 1 } := by
        unfold Disp.newProcessing
        rw [if_pos hj]
      simp only [Disp.runQueue, List.foldl_cons, List.filter_cons, hj, if_pos, List.map_cons]
      rw [hnp]
      simpa [Disp.joinTr] using ih _
    · have hnp : Disp.newProcessing s j =
          { s with errorText := some j.errText,
                   processedCount := s.processedCount + 1 } := by
        unfold Disp.newProcessing
        rw [if_neg hj]
      simp only [Disp.runQueue, List.foldl_cons, List.filter_cons,
        Bool.eq_false_iff.mpr hj]
      rw [hnp]
      simpa using ih _

lemma Disp.runQueue_errorText_preserved (jobs : List Disp.Job) :
    ∀ s : Disp.State, s.errorText ≠ none → (Disp.runQueue s jobs).errorText ≠ none := by
  induction jobs with
  | nil => intro s h; exact h
  | cons j jobs ih =>
    intro s h
    simp only [Disp.runQueue, List.foldl_cons] at *
    refine ih (Disp.newProcessing s j) ?_
    unfold Disp.newProcessing
    split
    · simpa using h
    · simp

lemma Disp.runQueue_errorText_of_failure (jobs : List Disp.Job) :
    ∀ s : Disp.State, (∃ j ∈ jobs, j.ok = false) →
    (Disp.runQueue s jobs).errorText ≠ none := by
  induction jobs with
  | nil => intro s h; simp at h
  | cons j jobs ih =>
    intro s h
    simp only [Disp.runQueue, List.foldl_cons]
    rcases h with ⟨x, hx, hxok⟩
    rcases List.mem_cons.mp hx with rfl | hx2
    · have hnp : (Disp.newProcessing s x).errorText = some x.errText := by
        unfold Disp.newProcessing
        rw [if_neg (by simp [hxok])]
      refine Disp.runQueue_errorText_preserved jobs (Disp.newProcessing s x) ?_
      simp [hnp]
    · exact ih (Disp.newProcessing s j) ⟨x, hx2, hxok⟩

/-! Claim theorems. -/

/-- C1: for every sequence of activity samples, chunk arrivals and
listening operations, at most one utterance-recording session is active at
any time; a voiced sample arriving while a session is already active never
creates a second concurrent session (the `handleVoiceDetected` and
`startRecording` guards of page.tsx). -/
theorem page_at_most_one_active_session (evs : List (Nat × Page.Ev)) :
    (Page.procEvents Page.startState evs).active.length ≤ 1 :=
  Page.procEvents_active_len evs Page.startState (by simp [Page.startState])

/-- C2: a sub-threshold run strictly shorter than the silence-debounce
duration embedded inside a voiced region emits no stop: the first silent
sample arms the timer, further silent samples before the deadline do not
re-arm or fire it, and the voiced resume before the deadline cancels it,
leaving the machine exactly as it was — the same session continues, the
clip list is unchanged, and the surrounding voiced region yields one
utterance, not two. -/
theorem short_silence_gap_does_not_split_utterance
    (m : Page.State) (s1 tr p1 pr : Nat) (rest : List (Nat × Nat))
    (ha : m.active ≠ []) (hdl : m.silenceDeadline = none)
    (hp1 : p1 < Page.VOICE_PROBABILITY_THRESHOLD)
    (hrest : ∀ e ∈ rest, e.2 < Page.VOICE_PROBABILITY_THRESHOLD ∧
      e.1 < s1 + Page.SILENCE_DURATION_THRESHOLD)
    (htr : tr < s1 + Page.SILENCE_DURATION_THRESHOLD)
    (hpr : Page.VOICE_PROBABILITY_THRESHOLD ≤ pr) :
    Page.procEvents m
      (((s1, Page.Ev.sample p1) :: rest.map (fun e => (e.1, Page.Ev.sample e.2))) ++
        [(tr, Page.Ev.sample pr)]) = m := by
  have hfirst := Page.stepAt_first_silent m s1 p1 hdl hp1 ha
  have hrun := Page.procEvents_silent_run rest
    { m with silenceDeadline := some (s1 + Page.SILENCE_DURATION_THRESHOLD) }
    (s1 + Page.SILENCE_DURATION_THRESHOLD) rfl (by simpa using ha) hrest
  have hres := Page.stepAt_resume
    { m with silenceDeadline := some (s1 + Page.SILENCE_DURATION_THRESHOLD) }
    tr pr (s1 + Page.SILENCE_DURATION_THRESHOLD) rfl htr hpr (by simpa using ha)
  simp only [Page.procEvents, List.cons_append, List.foldl_cons, List.foldl_append,
    List.foldl_nil] at hrun ⊢
  rw [hfirst, hrun, hres]
  cases m
  simp_all

/-- C3: a completed session whose elapsed duration is strictly below the
configured minimum produces no clip: the `VoiceDetector` `onstop` leaves
the clip list unchanged and discards the chunks, the queued variant's
`onstop` additionally dispatches nothing to transcription, and the
speech2tex `onstop` does not save the packet. -/
theorem below_min_duration_produces_no_clip
    (mp : Page.State) (a t : Nat) (hap : mp.active = [a])
    (hdp : t - a < Page.MIN_RECORDING_DURATION)
    (mr : Rt.State) (b u : Nat) (har : mr.active = [b])
    (hdr : u - b < Rt.MIN_RECORDING_DURATION)
    (d : Nat) (cs : List Nat) (hds : d < S2T.MIN_RECORDING_LENGTH) :
    ((Page.onstopAt mp t).clips = mp.clips ∧ (Page.onstopAt mp t).chunks = [])
    ∧ ((Rt.onstopAt mr u).clips = mr.clips ∧ (Rt.onstopAt mr u).dispatched = mr.dispatched
        ∧ (Rt.onstopAt mr u).chunks = [])
    ∧ S2T.onstopSaves d cs = false := by
  refine ⟨?_, ?_, ?_⟩
  · unfold Page.onstopAt
    rw [hap]
    by_cases h0 : a = 0
    · simp [h0, Page.MIN_RECORDING_DURATION]
    · simp [h0, Nat.not_le.mpr hdp]
  · unfold Rt.onstopAt
    rw [har]
    simp [Nat.not_le.mpr hdr]
  · unfold S2T.onstopSaves
    simp [Nat.not_le.mpr hds]

/-- C4: the promise-chained dispatcher processes jobs strictly
sequentially in submission order: whatever the per-job network latencies
(so in particular when concurrent calls would have delivered the responses
out of order), the accumulated transcript is the submission-order
concatenation of the per-clip transcripts, and each job's network call
starts exactly when the previous job finishes. -/
theorem transcripts_merge_in_submission_order
    (s : Disp.State) (jobs : List Disp.Job) (t0 : Nat)
    (hok : ∀ j ∈ jobs, j.ok = true) :
    (Disp.runQueue s jobs).transcription =
      Disp.joinTr s.transcription (jobs.map Disp.Job.transcript)
    ∧ List.Chain' (fun a b => a.2 = b.1)
        (Disp.chainTimes t0 (jobs.map Disp.Job.latency)) :=
  ⟨Disp.runQueue_transcription_ok jobs s hok,
   Disp.chainTimes_sequential (jobs.map Disp.Job.latency) t0⟩

/-- C5: when some queued job fails, every job is still processed (the
count grows by the full queue length), the transcript is the
submission-order concatenation of exactly the successful jobs'
transcripts, the listening/recording session flags are untouched, and the
failure is recorded in the error state. -/
theorem failed_job_does_not_block_queue
    (s : Disp.State) (jobs : List Disp.Job)
    (hfail : ∃ j ∈ jobs, j.ok = false) :
    (Disp.runQueue s jobs).processedCount = s.processedCount + jobs.length
    ∧ (Disp.runQueue s jobs).transcription =
        Disp.joinTr s.transcription ((jobs.filter (fun j => j.ok)).map Disp.Job.transcript)
    ∧ (Disp.runQueue s jobs).isListening = s.isListening
    ∧ (Disp.runQueue s jobs).isRecording = s.isRecording
    ∧ (Disp.runQueue s jobs).errorText ≠ none :=
  ⟨Disp.runQueue_processedCount jobs s, Disp.runQueue_transcription_filter jobs s,
   Disp.runQueue_isListening jobs s, Disp.runQueue_isRecording jobs s,
   Disp.runQueue_errorText_of_failure jobs s hfail⟩

/-- C6: in the queued variant, when a session's elapsed duration reaches
the configured maximum while every sample stays voiced (no silence timer
armed), the max-duration timer fires at `start + MAX_RECORDING_DURATION`
and forcibly finalizes the session there — the clip stops exactly at the
maximum and is dispatched — and the voiced sample then immediately starts
a fresh session with a new max-duration timer. -/
theorem max_duration_forces_finalization
    (m : Rt.State) (t0 t pr : Nat)
    (hl : m.listening = true) (hs : m.stream = true)
    (ha : m.active = [t0]) (hsil : m.silenceDeadline = none)
    (hmax : m.maxDeadline = some (t0 + Rt.MAX_RECORDING_DURATION))
    (hch : m.chunks ≠ []) (ht : t0 + Rt.MAX_RECORDING_DURATION ≤ t)
    (hpr : Rt.VOICE_PROBABILITY_THRESHOLD ≤ pr) :
    Rt.stepAt m (t, Rt.Ev.sample pr) =
      { m with clips := m.clips ++ [(t0, t0 + Rt.MAX_RECORDING_DURATION)],
               dispatched := m.dispatched ++ [m.chunks],
               chunks := [], active := [t],
               silenceDeadline := none,
               maxDeadline := some (t + Rt.MAX_RECORDING_DURATION) } := by
  obtain ⟨li, st, bu, sd, md, ac, ch, cl, dp⟩ := m
  simp only at hl hs ha hsil hmax hch
  subst hl hs ha hsil hmax
  simp [Rt.stepAt, Rt.fireDue, Rt.fireMax, Rt.stopRecording, Rt.onstopAt,
    Rt.handle, Rt.handleVoiceProbability, Rt.handleVoiceDetected,
    ht, hpr, hch, Nat.add_sub_cancel_left, List.length_pos.mpr hch,
    (by decide : Rt.MIN_RECORDING_DURATION ≤ Rt.MAX_RECORDING_DURATION)]

/-- C10: a completed session in which no non-empty chunk was captured
produces no clip and dispatches nothing to transcription, independently of
its duration: the chunk-sequence guard of `onstop` is required in addition
to the minimum-duration policy. -/
theorem empty_chunks_produce_no_clip
    (mp : Page.State) (t : Nat) (hcp : mp.chunks = [])
    (mr : Rt.State) (u : Nat) (hcr : mr.chunks = []) :
    (Page.onstopAt mp t).clips = mp.clips
    ∧ (Rt.onstopAt mr u).clips = mr.clips
    ∧ (Rt.onstopAt mr u).dispatched = mr.dispatched := by
  refine ⟨?_, ?_, ?_⟩
  · unfold Page.onstopAt
    rcases h : mp.active with _ | ⟨a, rest⟩ <;> simp [h, hcp]
  · unfold Rt.onstopAt
    rcases h : mr.active with _ | ⟨a, rest⟩ <;> simp [h, hcr]
  · unfold Rt.onstopAt
    rcases h : mr.active with _ | ⟨a, rest⟩ <;> simp [h, hcr]

/-- C7 counterexample: the page.tsx unmount cleanup performed while the
silence timer is armed (state `wRel`) does not cancel the timer — the
deadline survives release — and the timer's later firing still mutates the
session state, finalizing a clip after release. -/
theorem release_leaves_silence_timer_armed :
    (Page.unmountCleanup wRel).silenceDeadline ≠ none
    ∧ Page.fireDue (Page.unmountCleanup wRel) 2600 ≠ Page.unmountCleanup wRel
    ∧ (Page.fireDue (Page.unmountCleanup wRel) 2600).clips = [(100, 2000)] := by
  decide

/-- C7 amended: in the speech2tex variant, `stopListening` (the teardown
path that stops the stream, closes the audio context and destroys the VAD)
does clear the armed pause timer, and afterwards no timer firing can
mutate the state. -/
theorem s2t_stopListening_cancels_pause_timer (s : S2T.State) (t : Nat) :
    (S2T.stopListening s).pauseDeadline = none
    ∧ S2T.pauseFire (S2T.stopListening s) t = S2T.stopListening s :=
  ⟨rfl, rfl⟩

/-- C8 counterexample: in the non-queued page.tsx variant, a voiced sample
arriving while a transcription job is being processed (`isProcessing`
true) with the start conditions otherwise satisfied (listening, not
recording, stream present) does not start a recording: both the
`handleVoiceDetected` guard and the `startRecording` entry guard reject
it. -/
theorem processing_blocks_start_in_page_variant :
    P2.handleVoiceStarts false true true true = false
    ∧ P2.startRecordingProceeds true false true = false := by
  decide

/-- C8 amended: in the queued variant (part_001), `handleVoiceDetected`
never consults the `isProcessing` flag: whatever the state of the
in-flight transcription chain, a voiced sample satisfying the start
conditions (listening, not recording) starts a new session and arms its
max-duration timer. -/
theorem inflight_job_does_not_block_start
    (m : Rt.State) (t : Nat) (b : Bool)
    (hl : m.listening = true) (hs : m.stream = true) (ha : m.active = []) :
    (Rt.handleVoiceDetected { m with busy := b } t).active = [t]
    ∧ (Rt.handleVoiceDetected { m with busy := b } t).maxDeadline =
        some (t + Rt.MAX_RECORDING_DURATION) := by
  unfold Rt.handleVoiceDetected
  simp [ha, hl, hs]

/-- C9 counterexample: a chunk that pushes a fresh client's buffer past
`MAX_BUFFER_SIZE` is answered with an error message, but the buffered
audio is not reset (the oversized chunk stays buffered) and the connection
is not reset either. -/
theorem overflow_leaves_buffer_and_connection :
    (Srv.audioCase Srv.connectedClient 1048577).1.buffer ≠ []
    ∧ (Srv.audioCase Srv.connectedClient 1048577).1.connected = true
    ∧ (Srv.audioCase Srv.connectedClient 1048577).2 =
        some (Srv.Reply.errorText "Failed to process message") := by
  decide

/-- C9 amended: when an audio chunk pushes the accumulated buffer past
`MAX_BUFFER_SIZE`, the overflow is surfaced to the client as an error
message, but it is not fatal to the connection or session: the client
record keeps the whole buffer including the overflowing chunk, and the
socket state is unchanged. -/
theorem overflow_error_keeps_buffer_and_connection
    (c : Srv.Client) (chunk : Nat)
    (hov : Srv.MAX_BUFFER_SIZE < (c.buffer ++ [chunk]).foldl (fun acc l => acc + l) 0) :
    Srv.audioCase c chunk =
      ({ c with buffer := c.buffer ++ [chunk] },
        some (Srv.Reply.errorText "Failed to process message")) := by
  unfold Srv.audioCase
  simp only []
  rw [if_pos hov]

/-! Witnesses: each instantiates its claim theorem at a concrete input. -/

/-- Witness for C1 at a concrete trace. -/
theorem at_most_one_session_witness :
    (Page.procEvents Page.startState
      [(0, Page.Ev.startListen), (10, Page.Ev.sample 900),
        (20, Page.Ev.sample 900)]).active.length ≤ 1 :=
  page_at_most_one_active_session
    [(0, Page.Ev.startListen), (10, Page.Ev.sample 900), (20, Page.Ev.sample 900)]

/-- Witness for C2: the spec example scaled to this variant — a 300 ms
silent dip (samples at 2000 and 2200, resume at 2300) inside a recording,
against the 1500 ms debounce. -/
theorem short_silence_gap_witness :
    ((100 : Nat) < Page.VOICE_PROBABILITY_THRESHOLD
      ∧ (2300 : Nat) < 2000 + Page.SILENCE_DURATION_THRESHOLD)
    ∧ Page.procEvents wGap
        (((2000, Page.Ev.sample 100) ::
          [((2200 : Nat), (150 : Nat))].map (fun e => (e.1, Page.Ev.sample e.2))) ++
          [(2300, Page.Ev.sample 900)]) = wGap :=
  ⟨⟨by decide, by decide⟩,
    short_silence_gap_does_not_split_utterance wGap 2000 2300 100 900 [(2200, 150)]
      (by decide) rfl (by decide) (by decide) (by decide) (by decide)⟩

/-- Witness for C3: a 200 ms session in each variant. -/
theorem below_min_duration_witness :
    ((1200 : Nat) - 1000 < Page.MIN_RECORDING_DURATION
      ∧ (150 : Nat) - 50 < Rt.MIN_RECORDING_DURATION
      ∧ (200 : Nat) < S2T.MIN_RECORDING_LENGTH)
    ∧ (((Page.onstopAt wShortP 1200).clips = wShortP.clips
        ∧ (Page.onstopAt wShortP 1200).chunks = [])
      ∧ ((Rt.onstopAt wShortR 150).clips = wShortR.clips
          ∧ (Rt.onstopAt wShortR 150).dispatched = wShortR.dispatched
          ∧ (Rt.onstopAt wShortR 150).chunks = [])
      ∧ S2T.onstopSaves 200 [100] = false) :=
  ⟨⟨by decide, by decide, by decide⟩,
    below_min_duration_produces_no_clip wShortP 1000 1200 rfl (by decide)
      wShortR 50 150 rfl (by decide) 200 [100] (by decide)⟩

/-- Witness for C4: jobs A, B, C with latencies 2, 3, 1, which would have
arrived in the order C, A, B under concurrent dispatch. -/
theorem transcripts_merge_witness :
    (∀ j ∈ wJobsOk, j.ok = true)
    ∧ ((Disp.runQueue Disp.startState wJobsOk).transcription =
        Disp.joinTr Disp.startState.transcription (wJobsOk.map Disp.Job.transcript)
      ∧ List.Chain' (fun a b => a.2 = b.1)
          (Disp.chainTimes 0 (wJobsOk.map Disp.Job.latency))) :=
  ⟨by decide, transcripts_merge_in_submission_order Disp.startState wJobsOk 0 (by decide)⟩

/-- Witness for C5: the middle job fails, the queue still processes all
three. -/
theorem failed_job_witness :
    (∃ j ∈ wJobsFail, j.ok = false)
    ∧ ((Disp.runQueue Disp.startState wJobsFail).processedCount =
          Disp.startState.processedCount + wJobsFail.length
      ∧ (Disp.runQueue Disp.startState wJobsFail).transcription =
          Disp.joinTr Disp.startState.transcription
            ((wJobsFail.filter (fun j => j.ok)).map Disp.Job.transcript)
      ∧ (Disp.runQueue Disp.startState wJobsFail).isListening = Disp.startState.isListening
      ∧ (Disp.runQueue Disp.startState wJobsFail).isRecording = Disp.startState.isRecording
      ∧ (Disp.runQueue Disp.startState wJobsFail).errorText ≠ none) :=
  ⟨by decide, failed_job_does_not_block_queue Disp.startState wJobsFail (by decide)⟩

/-- Witness for C6: a session started at 100 with the max timer due at
3100, hit by a voiced sample at 3200. -/
theorem max_duration_witness :
    (wMax.maxDeadline = some (100 + Rt.MAX_RECORDING_DURATION)
      ∧ 100 + Rt.MAX_RECORDING_DURATION ≤ 3200
      ∧ Rt.VOICE_PROBABILITY_THRESHOLD ≤ 900)
    ∧ Rt.stepAt wMax (3200, Rt.Ev.sample 900) =
        { wMax with clips := wMax.clips ++ [(100, 100 + Rt.MAX_RECORDING_DURATION)],
                    dispatched := wMax.dispatched ++ [wMax.chunks],
                    chunks := [], active := [3200],
                    silenceDeadline := none,
                    maxDeadline := some (3200 + Rt.MAX_RECORDING_DURATION) } :=
  ⟨⟨by decide, by decide, by decide⟩,
    max_duration_forces_finalization wMax 100 3200 900 rfl rfl rfl rfl (by decide)
      (by decide) (by decide) (by decide)⟩

/-- Witness for the amended C7 at a concrete state with an armed pause
timer. -/
theorem stopListening_cancel_witness :
    (S2T.stopListening ⟨true, true, some 100, some 2100, false⟩).pauseDeadline = none
    ∧ S2T.pauseFire (S2T.stopListening ⟨true, true, some 100, some 2100, false⟩) 2200 =
        S2T.stopListening ⟨true, true, some 100, some 2100, false⟩ :=
  s2t_stopListening_cancels_pause_timer ⟨true, true, some 100, some 2100, false⟩ 2200

/-- Witness for the amended C8: while the chain is busy, a voiced sample
at 1000 still starts a session. -/
theorem inflight_start_witness :
    (wStart.listening = true ∧ wStart.stream = true ∧ wStart.active = [])
    ∧ ((Rt.handleVoiceDetected { wStart with busy := true } 1000).active = [1000]
      ∧ (Rt.handleVoiceDetected { wStart with busy := true } 1000).maxDeadline =
          some (1000 + Rt.MAX_RECORDING_DURATION)) :=
  ⟨⟨rfl, rfl, rfl⟩, inflight_job_does_not_block_start wStart 1000 true rfl rfl rfl⟩

/-- Witness for the amended C9: a 200000-byte chunk on top of 900000
buffered bytes crosses the 1 MiB cap. -/
theorem overflow_kept_witness :
    Srv.MAX_BUFFER_SIZE < (wOvClient.buffer ++ [200000]).foldl (fun acc l => acc + l) 0
    ∧ Srv.audioCase wOvClient 200000 =
        ({ wOvClient with buffer := wOvClient.buffer ++ [200000] },
          some (Srv.Reply.errorText "Failed to process message")) :=
  ⟨by decide, overflow_error_keeps_buffer_and_connection wOvClient 200000 (by decide)⟩

/-- Witness for C10: chunkless sessions of ample duration (4900 ms). -/
theorem empty_chunks_witness :
    (wEmptyP.chunks = [] ∧ Page.MIN_RECORDING_DURATION ≤ 5000 - 100
      ∧ wEmptyR.chunks = [] ∧ Rt.MIN_RECORDING_DURATION ≤ 5000 - 100)
    ∧ ((Page.onstopAt wEmptyP 5000).clips = wEmptyP.clips
      ∧ (Rt.onstopAt wEmptyR 5000).clips = wEmptyR.clips
      ∧ (Rt.onstopAt wEmptyR 5000).dispatched = wEmptyR.dispatched) :=
  ⟨⟨rfl, by decide, rfl, by decide⟩,
    empty_chunks_produce_no_clip wEmptyP 5000 rfl wEmptyR 5000 rfl⟩
